import Mathlib

/-!
Shallow embedding of `src/demoprocess.py` from the pycursesui repository:
the enums `DemoStates` and `DemoModes` and the class `DemoProcess` with its
update methods, accessors and the bodies of the two periodic coroutines.

Modelling conventions:
* Python floats are IEEE-754 binary64; they are modelled exactly by dyadic
  rationals `m * 2 ^ e` with round-to-nearest-even rounding to 53 significant
  bits (`Flt`).  Every value arising in this program is normal and far from
  overflow and underflow, so exponent clamping and subnormals never trigger.
* Python integers are unbounded, so `Int` models them directly.
* Attributes that `__init__` sets to `None`, and attributes that are first
  assigned only in `_init_demo_color`, are `Option` fields holding `none`;
  using such a field in arithmetic raises in Python (TypeError resp.
  AttributeError), modelled uniformly as `Except.error PyErr.uninitErr`.
* The curses colour service call `curses.init_color`, which on some terminal
  configurations raises `curses.error`, is modelled by a `serviceOk : Bool`
  parameter; `curses.init_pair` and the external `demo_ui` widget calls have
  no effect on the model state.
* `random.choice(list(DemoStates))` is modelled by an oracle argument
  supplying the chosen member, which may be any member of the enumeration.
* Leading underscores of Python method and attribute names are dropped.
-/

set_option maxRecDepth 100000

namespace Demo

/-- Equality of `Except` results is decidable when both components are. -/
instance {ε α : Type} [DecidableEq ε] [DecidableEq α] : DecidableEq (Except ε α) :=
  fun x y =>
    match x, y with
    | .ok a, .ok b =>
      if h : a = b then isTrue (by rw [h]) else isFalse (fun hh => h (Except.ok.inj hh))
    | .error a, .error b =>
      if h : a = b then isTrue (by rw [h]) else isFalse (fun hh => h (Except.error.inj hh))
    | .ok _, .error _ => isFalse (fun hh => Except.noConfusion hh)
    | .error _, .ok _ => isFalse (fun hh => Except.noConfusion hh)

/-- Dyadic-rational model of a finite IEEE-754 binary64 value `m * 2 ^ e`,
kept in canonical form (`m` odd, or `m = 0 ∧ e = 0`) so that structural
equality coincides with value equality. -/
structure Flt where
  m : Int
  e : Int
  deriving DecidableEq, Repr

/-- Bit length of a natural number, by fuel recursion so that the kernel
can evaluate it definitionally. -/
def bitLen : Nat → Nat → Nat
  | 0, _ => 0
  | f + 1, n => if n = 0 then 0 else bitLen f (n / 2) + 1

/-- Strips factors of two from a significand, moving them into the
exponent (fuel recursion). -/
def canonAux : Nat → Nat → Int → Nat × Int
  | 0, n, e => (n, e)
  | f + 1, n, e => if n % 2 = 0 ∧ n ≠ 0 then canonAux f (n / 2) (e + 1) else (n, e)

/-- Canonical form of the dyadic `M * 2 ^ E`. -/
def canon (M : Int) (E : Int) : Flt :=
  if M = 0 then ⟨0, 0⟩
  else
    let p := canonAux 128 M.natAbs E
    ⟨if M < 0 then -(p.1 : Int) else (p.1 : Int), p.2⟩

/-- Rounds the exact dyadic `M * 2 ^ E` to 53 significant bits with
round-to-nearest, ties to even: the binary64 rounding of a sum in the
normal range. -/
def round53 (M : Int) (E : Int) : Flt :=
  if M = 0 then ⟨0, 0⟩
  else
    let n := M.natAbs
    let blen := bitLen 256 n
    if blen ≤ 53 then canon M E
    else
      let s := blen - 53
      let d : Nat := 2 ^ s
      let q := n / d
      let r := n % d
      let q2 := if 2 * r < d then q
                else if 2 * r > d then q + 1
                else if q % 2 = 0 then q else q + 1
      canon (if M < 0 then -(q2 : Int) else (q2 : Int)) (E + (s : Int))

/-- Binary64 addition: exact dyadic sum followed by `round53`. -/
def Flt.add (a b : Flt) : Flt :=
  let e := min a.e b.e
  round53 (a.m * 2 ^ (a.e - e).toNat + b.m * 2 ^ (b.e - e).toNat) e

/-- Binary64 negation (exact); models Python `x *= -1` on a float. -/
def Flt.neg (a : Flt) : Flt := ⟨-a.m, a.e⟩

/-- Comparison of two binary64 values (exact on dyadic rationals). -/
def Flt.le (a b : Flt) : Prop :=
  a.m * 2 ^ (a.e - min a.e b.e).toNat ≤ b.m * 2 ^ (b.e - min a.e b.e).toNat

instance (a b : Flt) : Decidable (Flt.le a b) :=
  inferInstanceAs (Decidable (_ ≤ _))

/-- The binary64 value of the Python literal `0.1`. -/
def flt01 : Flt := ⟨3602879701896397, -55⟩

/-- The binary64 value of the Python literal `0.0`. -/
def flt0 : Flt := ⟨0, 0⟩

/-- The binary64 value of the Python literal `1.0`. -/
def flt1 : Flt := ⟨1, 0⟩

/-- The binary64 value of the Python literal `-1.0`. -/
def fltm1 : Flt := ⟨-1, 0⟩

/-- Embeds `class DemoStates(Enum)`: the enumerated demo states. -/
inductive DemoStates
  | Disconnected
  | Idle
  | Cycling
  | Faulted
  deriving DecidableEq, Repr

/-- The integer value of each `DemoStates` member. -/
def DemoStates.val : DemoStates → Int
  | .Disconnected => 0
  | .Idle => 1
  | .Cycling => 2
  | .Faulted => 3

/-- The `.name` string of each `DemoStates` member. -/
def DemoStates.name : DemoStates → String
  | .Disconnected => "Disconnected"
  | .Idle => "Idle"
  | .Cycling => "Cycling"
  | .Faulted => "Faulted"

/-- Embeds `class DemoModes(Enum)`: the enumerated demo modes. -/
inductive DemoModes
  | Disabled
  | Setup
  | Test
  | Run
  deriving DecidableEq, Repr

/-- The integer value of each `DemoModes` member. -/
def DemoModes.val : DemoModes → Int
  | .Disabled => 22
  | .Setup => 44
  | .Test => 33
  | .Run => 11

/-- The `.name` string of each `DemoModes` member. -/
def DemoModes.name : DemoModes → String
  | .Disabled => "Disabled"
  | .Setup => "Setup"
  | .Test => "Test"
  | .Run => "Run"

/-- Python runtime errors that the embedded code can raise:
`uninitErr` models the AttributeError / TypeError raised when an attribute
that is absent or `None` is used, `cursesErr` models `curses.error` raised
by the colour service on terminals that reject custom colour definitions. -/
inductive PyErr
  | uninitErr
  | cursesErr
  deriving DecidableEq, Repr

/-- Reads a possibly-uninitialized attribute, raising `uninitErr` when it
is absent or `None`, as Python would. -/
def getAttr {α : Type} : Option α → Except PyErr α
  | some a => .ok a
  | none => .error .uninitErr

/-- The attribute state of a `DemoProcess` instance.  Fields mirror the
Python instance attributes; `Option` fields are those that `__init__`
sets to `None` or does not set at all (they are first assigned in
`_init_demo_color`). -/
structure DemoProcess where
  current_temperature : Int
  temperature_delta : Int
  max_temperature : Int
  min_temperature : Int
  current_state_name : String
  state_delay : Int
  state_count : Int
  mode : DemoModes
  demo_red_color : Option Int
  demo_green_color : Option Int
  demo_blue_color : Option Int
  demo_red_delta : Option Int
  demo_green_delta : Option Int
  demo_blue_delta : Option Int
  current_percent : Flt
  percent_delta : Flt
  max_percent : Flt
  min_percent : Flt
  max_color_value : Option Int
  min_color_value : Option Int
  demo_red_value : Option Int
  demo_green_value : Option Int
  demo_blue_value : Option Int
  demo_color_pair2 : Option Int
  demo_pair2_delta : Option Int
  demo_color_number : Option Int
  total_color_pairs : Option Int
  demo_color_pair : Option Int
  deriving DecidableEq, Repr

/-- Embeds `DemoProcess.__init__`: the freshly constructed instance.
Fields from `demo_red_color` through `demo_blue_delta` are set to `None`
by `__init__`; the trailing block of `Option` fields models attributes
that `__init__` never assigns (first assigned in `_init_demo_color`). -/
def DemoProcess.init : DemoProcess where
  current_temperature := 20
  temperature_delta := 1
  max_temperature := 30
  min_temperature := 10
  current_state_name := DemoStates.Disconnected.name
  state_delay := 5
  state_count := 5
  mode := DemoModes.Disabled
  demo_red_color := none
  demo_green_color := none
  demo_blue_color := none
  demo_red_delta := none
  demo_green_delta := none
  demo_blue_delta := none
  current_percent := flt0
  percent_delta := flt01
  max_percent := flt1
  min_percent := fltm1
  max_color_value := none
  min_color_value := none
  demo_red_value := none
  demo_green_value := none
  demo_blue_value := none
  demo_color_pair2 := none
  demo_pair2_delta := none
  demo_color_number := none
  total_color_pairs := none
  demo_color_pair := none

/-- Embeds `DemoProcess._update_temperature`: add the delta to the current
temperature, then flip the delta if the updated value is at or beyond
either limit. -/
def DemoProcess.update_temperature (s : DemoProcess) : DemoProcess :=
  let c := s.current_temperature + s.temperature_delta
  if c ≥ s.max_temperature ∨ c ≤ s.min_temperature then
    { s with current_temperature := c, temperature_delta := s.temperature_delta * -1 }
  else
    { s with current_temperature := c }

/-- Embeds `DemoProcess._update_percent`: binary64 addition of the delta to
the current percent, then flip the delta if the updated value is at or
beyond either limit (float comparisons are exact on dyadic rationals). -/
def DemoProcess.update_percent (s : DemoProcess) : DemoProcess :=
  let c := Flt.add s.current_percent s.percent_delta
  if Flt.le s.max_percent c ∨ Flt.le c s.min_percent then
    { s with current_percent := c, percent_delta := Flt.neg s.percent_delta }
  else
    { s with current_percent := c }

/-- Embeds `DemoProcess._update_state`: decrement the countdown; when it
reaches zero or below, reset it to the delay and store the `.name` of a
random member of `DemoStates`.  The `random.choice` draw is modelled by
the `choice` oracle argument, which may be any member. -/
def DemoProcess.update_state (choice : DemoStates) (s : DemoProcess) : DemoProcess :=
  let c := s.state_count - 1
  if c ≤ 0 then
    { s with state_count := s.state_delay, current_state_name := choice.name }
  else
    { s with state_count := c }

/-- Embeds `DemoProcess._set_demo_color`: reads `demo_color_number` and the
colour bounds, clamps the three channels, and calls `curses.init_color`.
The curses call mutates no model state; on terminals that reject custom
colours it raises `curses.error` (`serviceOk = false`).  The source has no
try/except here — its own TODO comment notes that the call throws on
simpler displays. -/
def DemoProcess.set_demo_color (serviceOk : Bool) (s : DemoProcess)
    (red green blue : Int) : Except PyErr DemoProcess := do
  let _cn ← getAttr s.demo_color_number
  let mx ← getAttr s.max_color_value
  let mn ← getAttr s.min_color_value
  let _r := min mx (max red mn)
  let _g := min mx (max green mn)
  let _b := min mx (max blue mn)
  if serviceOk then pure s else throw PyErr.cursesErr

/-- Embeds `DemoProcess._init_demo_color`: seeds the three colour channels
at 500 with deltas 3, 6, 9 inside [0, 999], picks the colour number and
pair from the `demo_ui` totals, and pushes the initial colour to the
colour service.  `curses.init_pair` touches no model state. -/
def DemoProcess.init_demo_color (total_color_numbers total_color_pairs : Int)
    (serviceOk : Bool) (s : DemoProcess) : Except PyErr DemoProcess := do
  let s := { s with
    max_color_value := some 999
    min_color_value := some 0
    demo_red_value := some 500
    demo_green_value := some 500
    demo_blue_value := some 500
    demo_red_delta := some 3
    demo_green_delta := some 6
    demo_blue_delta := some 9
    demo_color_pair2 := some 1
    demo_pair2_delta := some 1
    demo_color_number := some (total_color_numbers - 1) }
  let r ← getAttr s.demo_red_value
  let g ← getAttr s.demo_green_value
  let b ← getAttr s.demo_blue_value
  let s ← s.set_demo_color serviceOk r g b
  pure { s with
    total_color_pairs := some total_color_pairs
    demo_color_pair := some (total_color_pairs - 1) }

/-- Embeds `DemoProcess._update_color`: advance each channel by its delta and
flip the delta at or beyond either bound (the `or` short-circuits, so the
lower bound is only read when the upper comparison fails), then push the
new colour through `_set_demo_color`.  The trailing string literal in the
source (the commented-out colour-pair test) evaluates to a value Python
discards, so it is omitted. -/
def DemoProcess.update_color (serviceOk : Bool) (s : DemoProcess) :
    Except PyErr DemoProcess := do
  let rv0 ← getAttr s.demo_red_value
  let rd0 ← getAttr s.demo_red_delta
  let rv := rv0 + rd0
  let mx ← getAttr s.max_color_value
  let rd ←
    if rv ≥ mx then pure (rd0 * -1)
    else do
      let mn ← getAttr s.min_color_value
      pure (if rv ≤ mn then rd0 * -1 else rd0)
  let s := { s with demo_red_value := some rv, demo_red_delta := some rd }
  let gv0 ← getAttr s.demo_green_value
  let gd0 ← getAttr s.demo_green_delta
  let gv := gv0 + gd0
  let mx ← getAttr s.max_color_value
  let gd ←
    if gv ≥ mx then pure (gd0 * -1)
    else do
      let mn ← getAttr s.min_color_value
      pure (if gv ≤ mn then gd0 * -1 else gd0)
  let s := { s with demo_green_value := some gv, demo_green_delta := some gd }
  let bv0 ← getAttr s.demo_blue_value
  let bd0 ← getAttr s.demo_blue_delta
  let bv := bv0 + bd0
  let mx ← getAttr s.max_color_value
  let bd ←
    if bv ≥ mx then pure (bd0 * -1)
    else do
      let mn ← getAttr s.min_color_value
      pure (if bv ≤ mn then bd0 * -1 else bd0)
  let s := { s with demo_blue_value := some bv, demo_blue_delta := some bd }
  let r ← getAttr s.demo_red_value
  let g ← getAttr s.demo_green_value
  let b ← getAttr s.demo_blue_value
  s.set_demo_color serviceOk r g b

/-- Embeds one iteration of the body of `DemoProcess.run_fast` (everything
between two awaits): `_update_color()` then `_update_percent()`.  An
exception from the colour update propagates and the percent update does
not run. -/
def DemoProcess.run_fast_body (serviceOk : Bool) (s : DemoProcess) :
    Except PyErr DemoProcess := do
  let s ← s.update_color serviceOk
  pure s.update_percent

/-- `n` consecutive iterations of the `run_fast` loop body. -/
def DemoProcess.run_fast_iter (serviceOk : Bool) : Nat → DemoProcess → Except PyErr DemoProcess
  | 0, s => pure s
  | n + 1, s => do DemoProcess.run_fast_iter serviceOk n (← s.run_fast_body serviceOk)

/-- Embeds one iteration of the body of `DemoProcess.run_slow`:
`_update_temperature()`, `_update_state()`, `_update_color()`. -/
def DemoProcess.run_slow_body (serviceOk : Bool) (choice : DemoStates)
    (s : DemoProcess) : Except PyErr DemoProcess :=
  ((s.update_temperature).update_state choice).update_color serviceOk

/-- `n` consecutive iterations of the `run_slow` loop body; the oracle `f`
supplies the random draw of iteration `i` as `f i`. -/
def DemoProcess.run_slow_iter (serviceOk : Bool) (f : Nat → DemoStates) :
    Nat → DemoProcess → Except PyErr DemoProcess
  | 0, s => pure s
  | n + 1, s => do
    DemoProcess.run_slow_iter serviceOk (fun i => f (i + 1)) n
      (← s.run_slow_body serviceOk (f 0))

/-- `n` consecutive calls of `_update_state`; the oracle `f` supplies the
random draw of call `i` as `f i`. -/
def DemoProcess.state_iter (f : Nat → DemoStates) : Nat → DemoProcess → DemoProcess
  | 0, s => s
  | n + 1, s => DemoProcess.state_iter (fun i => f (i + 1)) n (s.update_state (f 0))

/-- Left-pads a digit string with zeros to width `k`. -/
def padLeft (k : Nat) (s : String) : String :=
  String.mk (List.replicate (k - s.length) '0') ++ s

/-- Drops trailing zero digits from a fractional digit string. -/
def dropTrailingZeros (s : String) : String :=
  String.mk (s.toList.reverse.dropWhile (fun c => c = '0')).reverse

/-- Decimal rendering of a binary64 value, used for Python `str(float)` /
`"{0}".format(float)`.  Python prints the shortest decimal that parses
back to the same double; this model prints the exact (terminating)
decimal expansion of the dyadic value, which agrees with Python on every
exactly-representable decimal (such as the limit defaults 1.0 and -1.0)
and differs only in digit count elsewhere.  No theorem below depends on
the digit strings themselves. -/
def pyFloatStr (v : Flt) : String :=
  let sign := if v.m < 0 then "-" else ""
  if v.e ≥ 0 then sign ++ toString (v.m.natAbs * 2 ^ v.e.toNat) ++ ".0"
  else
    let k := (-v.e).toNat
    let ip := v.m.natAbs / 2 ^ k
    let fr := v.m.natAbs % 2 ^ k * 5 ^ k
    let ds := dropTrailingZeros (padLeft k (toString fr))
    let ds2 := if ds = "" then "0" else ds
    sign ++ toString ip ++ "." ++ ds2

/-- Rendering of a binary64 value with two decimal places, used for the
Python format `"{:.2f}"`: the exact value times 100 is rounded to an
integer half-to-even and printed with two digits after the point.
(Python prints `-0.00` for tiny negative values; this model then prints
`0.00` — no value in this program hits that corner.) -/
def pyFixed2 (v : Flt) : String :=
  let sign := if v.m < 0 then "-" else ""
  let n : Nat :=
    if v.e ≥ 0 then v.m.natAbs * 2 ^ v.e.toNat * 100
    else
      let k := (-v.e).toNat
      let d : Nat := 2 ^ k
      let N := v.m.natAbs * 100
      let q := N / d
      let r := N % d
      if 2 * r < d then q else if 2 * r > d then q + 1
      else if q % 2 = 0 then q else q + 1
  sign ++ toString (n / 100) ++ "." ++ padLeft 2 (toString (n % 100))

/-- Embeds `DemoProcess.get_demo_color_text`.  The method only reads
attributes, so it returns the unchanged instance alongside the string;
reading a channel that was never initialized raises. -/
def DemoProcess.get_demo_color_text (s : DemoProcess) :
    Except PyErr (String × DemoProcess) := do
  let r ← getAttr s.demo_red_value
  let g ← getAttr s.demo_green_value
  let b ← getAttr s.demo_blue_value
  pure ("Color: R:" ++ toString r ++ " G:" ++ toString g ++ " B:" ++ toString b, s)

/-- Embeds `DemoProcess.get_demo_temperature_text` (read-only). -/
def DemoProcess.get_demo_temperature_text (s : DemoProcess) : String × DemoProcess :=
  ("Current Temp: " ++ toString s.current_temperature, s)

/-- Embeds `DemoProcess.get_demo_percent_text` (read-only). -/
def DemoProcess.get_demo_percent_text (s : DemoProcess) : String × DemoProcess :=
  ("Percent: " ++ pyFixed2 s.current_percent, s)

/-- Embeds `DemoProcess.get_demo_state_text` (read-only). -/
def DemoProcess.get_demo_state_text (s : DemoProcess) : String × DemoProcess :=
  ("Current State: " ++ s.current_state_name, s)

/-- Embeds `DemoProcess.get_demo_mode_text` (read-only; the local
`mode_list` the source builds is dead and has no effect). -/
def DemoProcess.get_demo_mode_text (s : DemoProcess) : String × DemoProcess :=
  ("Current Mode: " ++ s.mode.name, s)

/-- Embeds `DemoProcess.get_demo_mode_value` (read-only). -/
def DemoProcess.get_demo_mode_value (s : DemoProcess) : Int × DemoProcess :=
  (s.mode.val, s)

/-- Embeds `DemoProcess.set_demo_mode`: stores the given enum member. -/
def DemoProcess.set_demo_mode (s : DemoProcess) (newmode : DemoModes) : DemoProcess :=
  { s with mode := newmode }

/-- Embeds `DemoProcess.get_demo_tmax_text` (read-only). -/
def DemoProcess.get_demo_tmax_text (s : DemoProcess) : String × DemoProcess :=
  ("Max Temperature: " ++ toString s.max_temperature, s)

/-- Embeds `DemoProcess.set_demo_max_temperature`. -/
def DemoProcess.set_demo_max_temperature (s : DemoProcess) (tmax : Int) : DemoProcess :=
  { s with max_temperature := tmax }

/-- Embeds `DemoProcess.get_demo_tmin_text` (read-only). -/
def DemoProcess.get_demo_tmin_text (s : DemoProcess) : String × DemoProcess :=
  ("Min Temperature: " ++ toString s.min_temperature, s)

/-- Embeds `DemoProcess.set_demo_min_temperature`. -/
def DemoProcess.set_demo_min_temperature (s : DemoProcess) (tmin : Int) : DemoProcess :=
  { s with min_temperature := tmin }

/-- Embeds `DemoProcess.get_demo_pmax_text` (read-only). -/
def DemoProcess.get_demo_pmax_text (s : DemoProcess) : String × DemoProcess :=
  ("Max Percent: " ++ pyFloatStr s.max_percent, s)

/-- Embeds `DemoProcess.set_demo_max_percent`. -/
def DemoProcess.set_demo_max_percent (s : DemoProcess) (pmax : Flt) : DemoProcess :=
  { s with max_percent := pmax }

/-- Embeds `DemoProcess.get_demo_pmin_text` (read-only). -/
def DemoProcess.get_demo_pmin_text (s : DemoProcess) : String × DemoProcess :=
  ("Min Percent: " ++ pyFloatStr s.min_percent, s)

/-- Embeds `DemoProcess.set_demo_min_percent`. -/
def DemoProcess.set_demo_min_percent (s : DemoProcess) (pmin : Flt) : DemoProcess :=
  { s with min_percent := pmin }

/-- `n` consecutive calls of `_update_percent` (the percent advance
operation on its own). -/
def DemoProcess.percent_iter : Nat → DemoProcess → DemoProcess
  | 0, s => s
  | n + 1, s => DemoProcess.percent_iter n s.update_percent

/-- `n` consecutive calls of `_update_temperature`. -/
def DemoProcess.temp_iter : Nat → DemoProcess → DemoProcess
  | 0, s => s
  | n + 1, s => DemoProcess.temp_iter n s.update_temperature

/-- The model state right after construction followed by
`_init_demo_color` with a succeeding colour service, for a display
reporting 256 colour numbers and 256 colour pairs (the demo uses those
totals only to pick slot numbers; the channel trajectories are
independent of them). -/
def postInit : DemoProcess :=
  (DemoProcess.init.init_demo_color 256 256 true).toOption.getD DemoProcess.init

/-- The model state after ten iterations of the fast-task body starting
from `postInit`, with a succeeding colour service. -/
def fast10 : DemoProcess :=
  (DemoProcess.run_fast_iter true 10 postInit).toOption.getD DemoProcess.init

/-- The model state after one iteration of the fast-task body starting
from `postInit`, with a succeeding colour service. -/
def fast1 : DemoProcess :=
  (DemoProcess.run_fast_iter true 1 postInit).toOption.getD DemoProcess.init

/-- The state after one `_update_color` call on `postInit` with a
succeeding colour service. -/
def colorOnce : DemoProcess :=
  (DemoProcess.update_color true postInit).toOption.getD DemoProcess.init

/-- The model state after one iteration of the slow-task body starting
from `postInit`, with a succeeding colour service and an oracle that
draws `Idle`. -/
def slow1 : DemoProcess :=
  (DemoProcess.run_slow_iter true (fun _ => DemoStates.Idle) 1 postInit).toOption.getD
    DemoProcess.init

/-- An integer bounded range as described by the specification:
current value, floor, ceiling and signed step. -/
structure BRange where
  current : Int
  floor : Int
  ceiling : Int
  step : Int
  deriving DecidableEq, Repr

/-- The Bounded Oscillator contract of the specification (section 4.1),
stated from its words for comparison with the source-derived update
functions: add the step to the current value with no clamping, then flip
the sign of the step exactly when the updated value is at or beyond
either limit. -/
def advanceSpec (r : BRange) : BRange :=
  let c := r.current + r.step
  if c ≥ r.ceiling ∨ c ≤ r.floor then ⟨c, r.floor, r.ceiling, -r.step⟩
  else ⟨c, r.floor, r.ceiling, r.step⟩

/-- A binary64 bounded range as described by the specification. -/
structure BRangeF where
  current : Flt
  floor : Flt
  ceiling : Flt
  step : Flt
  deriving DecidableEq, Repr

/-- The Bounded Oscillator contract of the specification over binary64
values, stated from its words. -/
def advanceSpecF (r : BRangeF) : BRangeF :=
  let c := Flt.add r.current r.step
  if Flt.le r.ceiling c ∨ Flt.le c r.floor then ⟨c, r.floor, r.ceiling, Flt.neg r.step⟩
  else ⟨c, r.floor, r.ceiling, r.step⟩

/-- The temperature attributes of a `DemoProcess`, viewed as a bounded
range. -/
def DemoProcess.tempRange (s : DemoProcess) : BRange :=
  ⟨s.current_temperature, s.min_temperature, s.max_temperature, s.temperature_delta⟩

/-- The percent attributes of a `DemoProcess`, viewed as a binary64
bounded range. -/
def DemoProcess.pctRange (s : DemoProcess) : BRangeF :=
  ⟨s.current_percent, s.min_percent, s.max_percent, s.percent_delta⟩

/-- Splitting an `Except` bind that produced a success. -/
theorem bind_ok_iff {α β : Type} {x : Except PyErr α} {f : α → Except PyErr β} {b : β} :
    (x >>= f) = Except.ok b ↔ ∃ a, x = Except.ok a ∧ f a = Except.ok b := by
  cases x <;> simp [Bind.bind, Except.bind]

/-- Reading an attribute succeeds exactly on initialized attributes. -/
theorem getAttr_ok_iff {α : Type} {o : Option α} {a : α} :
    getAttr o = Except.ok a ↔ o = some a := by
  cases o <;> simp [getAttr]

/-- A successful `Except` computation feeds its value to the
continuation. -/
theorem ok_bind {α β : Type} (a : α) (f : α → Except PyErr β) :
    (Except.ok a >>= f) = f a := rfl

/-- A failed `Except` computation short-circuits past the
continuation. -/
theorem error_bind {α β : Type} (e : PyErr) (f : α → Except PyErr β) :
    (Except.error e >>= f) = Except.error e := rfl

/-- `pure` in the `Except` monad is `Except.ok`. -/
theorem pure_ok {α : Type} (a : α) : (pure a : Except PyErr α) = Except.ok a := rfl

/-- `throw` in the `Except` monad is `Except.error`. -/
theorem throw_eq {α : Type} (e : PyErr) : (throw e : Except PyErr α) = Except.error e := rfl

/-- C1.  The spec demands that a failure of the colour-service call during
a colour update be caught and ignored so the fast periodic task keeps
running.  The code has no try/except on this path (its own TODO comment
at `_set_demo_color` notes that `curses.init_color` throws on simpler
displays), so the `curses.error` raised by the service propagates out of
`_set_demo_color`, `_update_color` and the `run_fast` body, terminating
the coroutine: the body evaluates to an uncaught error, not to a normally
completed iteration, while with a succeeding service the same body
completes normally. -/
theorem c1_color_error_propagates :
    DemoProcess.set_demo_color false postInit 500 500 500 = Except.error PyErr.cursesErr
    ∧ DemoProcess.update_color false postInit = Except.error PyErr.cursesErr
    ∧ DemoProcess.run_fast_body false postInit = Except.error PyErr.cursesErr
    ∧ DemoProcess.run_fast_body true postInit = Except.ok fast1 := by
  refine ⟨rfl, rfl, rfl, rfl⟩

/-- C2 counterexample.  Starting from the default percent state, after
exactly 10 calls of `_update_percent` the binary64 current value is not
1.0 (repeated rounding leaves it one ulp below) and the step has not
flipped to -0.1, refuting the claim at its own concrete input. -/
theorem c2_counterexample :
    ¬((DemoProcess.percent_iter 10 DemoProcess.init).current_percent = flt1
      ∧ (DemoProcess.percent_iter 10 DemoProcess.init).percent_delta = Flt.neg flt01) := by
  decide

/-- C2 amended.  Starting from the default percent state, after 10 calls
of `_update_percent` the current value is the binary64 double
0.9999999999999999 (the predecessor of 1.0, with value
9007199254740991 / 2 ^ 53) and the step is still +0.1: the ≥ comparison
never sees exact equality because the rounded sum falls one ulp short.
The flip happens on the 11th call instead, when the current value lands
at about 1.0999999999999999, past the ceiling, and the step becomes
-0.1. -/
theorem c2_percent_boundary :
    (DemoProcess.percent_iter 10 DemoProcess.init).current_percent = ⟨9007199254740991, -53⟩
    ∧ (DemoProcess.percent_iter 10 DemoProcess.init).percent_delta = flt01
    ∧ ¬Flt.le flt1 (DemoProcess.percent_iter 10 DemoProcess.init).current_percent
    ∧ (DemoProcess.percent_iter 11 DemoProcess.init).current_percent = ⟨4953959590107545, -52⟩
    ∧ Flt.le flt1 (DemoProcess.percent_iter 11 DemoProcess.init).current_percent
    ∧ (DemoProcess.percent_iter 11 DemoProcess.init).percent_delta = Flt.neg flt01 := by
  decide

/-- C3 counterexample.  Constructing the Model and then executing the body
of the fast task loop is not a total computation: on a freshly
constructed `DemoProcess` (before `_init_demo_color` has run during
display setup) the very first `_update_color` raises on the
never-assigned channel attributes, so ten iterations produce an error,
not values. -/
theorem c3_counterexample :
    DemoProcess.run_fast_iter true 10 DemoProcess.init = Except.error PyErr.uninitErr := by
  decide

/-- C3 amended.  After construction followed by the colour initialization
performed during display setup (seeds 500 with steps 3, 6, 9, succeeding
colour service), ten iterations of the fast task body form a total
deterministic computation: the channels reach exactly 530, 560, 590 with
steps unchanged, and the percent reaches exactly the binary64 value
9007199254740991 / 2 ^ 53 (0.9999999999999999) with step +0.1. -/
theorem c3_fast_ten_deterministic :
    DemoProcess.run_fast_iter true 10 postInit = Except.ok fast10
    ∧ postInit.demo_red_value = some 500
    ∧ postInit.demo_green_value = some 500
    ∧ postInit.demo_blue_value = some 500
    ∧ postInit.current_percent = flt0
    ∧ postInit.percent_delta = flt01
    ∧ fast10.demo_red_value = some 530
    ∧ fast10.demo_green_value = some 560
    ∧ fast10.demo_blue_value = some 590
    ∧ fast10.demo_red_delta = some 3
    ∧ fast10.demo_green_delta = some 6
    ∧ fast10.demo_blue_delta = some 9
    ∧ fast10.current_percent = ⟨9007199254740991, -53⟩
    ∧ fast10.percent_delta = flt01 := by
  refine ⟨rfl, rfl, rfl, rfl, rfl, rfl, rfl, rfl, rfl, rfl, rfl, rfl, rfl, rfl⟩

/-- C4.  From the default temperature state (20, floor 10, ceiling 30,
step +1): after 10 calls of `_update_temperature` the current value is 30
with step -1; after 20 further calls it is 10 with step +1; after 40
calls the whole instance state is back to the freshly constructed one,
and at no earlier positive call count does it return, so the period is
exactly 40. -/
theorem c4_temperature_cycle :
    (DemoProcess.temp_iter 10 DemoProcess.init).current_temperature = 30
    ∧ (DemoProcess.temp_iter 10 DemoProcess.init).temperature_delta = -1
    ∧ (DemoProcess.temp_iter 30 DemoProcess.init).current_temperature = 10
    ∧ (DemoProcess.temp_iter 30 DemoProcess.init).temperature_delta = 1
    ∧ DemoProcess.temp_iter 40 DemoProcess.init = DemoProcess.init
    ∧ (List.range 39).all
        (fun k => decide (DemoProcess.temp_iter (k + 1) DemoProcess.init ≠ DemoProcess.init))
      = true := by
  decide

/-- C10.  After `__init__` alone the three colour channels and their
steps are uninitialized (`demo_red_color`, `demo_green_color`,
`demo_blue_color` and the three deltas are `None`; the channel values
`demo_red_value`, `demo_green_value`, `demo_blue_value` are not assigned
at all), so running `_update_color` — and hence one fast-task body — on a
freshly constructed Model fails on the uninitialized channels instead of
computing values; the 500 seeds and the 3, 6, 9 steps exist only after
`_init_demo_color`, which display setup invokes. -/
theorem c10_channels_uninitialized_before_setup :
    DemoProcess.init.demo_red_color = none
    ∧ DemoProcess.init.demo_green_color = none
    ∧ DemoProcess.init.demo_blue_color = none
    ∧ DemoProcess.init.demo_red_delta = none
    ∧ DemoProcess.init.demo_green_delta = none
    ∧ DemoProcess.init.demo_blue_delta = none
    ∧ DemoProcess.init.demo_red_value = none
    ∧ DemoProcess.init.demo_green_value = none
    ∧ DemoProcess.init.demo_blue_value = none
    ∧ DemoProcess.update_color true DemoProcess.init = Except.error PyErr.uninitErr
    ∧ DemoProcess.run_fast_body true DemoProcess.init = Except.error PyErr.uninitErr
    ∧ postInit.demo_red_value = some 500
    ∧ postInit.demo_green_value = some 500
    ∧ postInit.demo_blue_value = some 500
    ∧ postInit.demo_red_delta = some 3
    ∧ postInit.demo_green_delta = some 6
    ∧ postInit.demo_blue_delta = some 9 := by
  refine ⟨rfl, rfl, rfl, rfl, rfl, rfl, rfl, rfl, rfl, rfl, rfl, rfl, rfl, rfl, rfl, rfl, rfl⟩

/-- C5.  Every bounded-range advance operation of the program refines the
Bounded Oscillator contract stated from the spec: the temperature update,
the percent update, and — on any state whose colour attributes are
initialized — each of the three colour channels of `_update_color` first
add the step with no clamping and flip the sign of the step exactly when
the post-increment value is at or beyond the ceiling or the floor, and on
no other call (the resulting step is the flipped one exactly under that
condition).  Quantifying over all states covers every sequence of calls. -/
theorem c5_advance_refines_spec :
    (∀ s : DemoProcess, (s.update_temperature).tempRange = advanceSpec s.tempRange)
    ∧ (∀ s : DemoProcess, (s.update_percent).pctRange = advanceSpecF s.pctRange)
    ∧ (∀ (s t : DemoProcess) (rv rd gv gd bv bd mx mn cn : Int),
        s.demo_red_value = some rv → s.demo_red_delta = some rd →
        s.demo_green_value = some gv → s.demo_green_delta = some gd →
        s.demo_blue_value = some bv → s.demo_blue_delta = some bd →
        s.max_color_value = some mx → s.min_color_value = some mn →
        s.demo_color_number = some cn →
        DemoProcess.update_color true s = Except.ok t →
        (t.demo_red_value = some (advanceSpec ⟨rv, mn, mx, rd⟩).current
         ∧ t.demo_red_delta = some (advanceSpec ⟨rv, mn, mx, rd⟩).step
         ∧ t.demo_green_value = some (advanceSpec ⟨gv, mn, mx, gd⟩).current
         ∧ t.demo_green_delta = some (advanceSpec ⟨gv, mn, mx, gd⟩).step
         ∧ t.demo_blue_value = some (advanceSpec ⟨bv, mn, mx, bd⟩).current
         ∧ t.demo_blue_delta = some (advanceSpec ⟨bv, mn, mx, bd⟩).step)) := by
  refine ⟨fun s => ?_, fun s => ?_, ?_⟩
  · by_cases h : s.current_temperature + s.temperature_delta ≥ s.max_temperature
        ∨ s.current_temperature + s.temperature_delta ≤ s.min_temperature
    · simp [DemoProcess.update_temperature, DemoProcess.tempRange, advanceSpec, h, mul_neg_one]
    · simp [DemoProcess.update_temperature, DemoProcess.tempRange, advanceSpec, h]
  · by_cases h : Flt.le s.max_percent (Flt.add s.current_percent s.percent_delta)
        ∨ Flt.le (Flt.add s.current_percent s.percent_delta) s.min_percent
    · simp [DemoProcess.update_percent, DemoProcess.pctRange, advanceSpecF, h]
    · simp [DemoProcess.update_percent, DemoProcess.pctRange, advanceSpecF, h]
  · intro s t rv rd gv gd bv bd mx mn cn h1 h2 h3 h4 h5 h6 h7 h8 h9 hu
    unfold DemoProcess.update_color DemoProcess.set_demo_color at hu
    simp only [h1, h2, h3, h4, h5, h6, h7, h8, h9, getAttr, ok_bind, pure_bind, pure_ok] at hu
    by_cases hr : rv + rd ≥ mx <;> by_cases hg : gv + gd ≥ mx <;> by_cases hb : bv + bd ≥ mx <;>
        simp [hr, hg, hb] at hu <;>
      (subst hu; simp [advanceSpec, hr, hg, hb, mul_neg_one]) <;> split_ifs <;> simp

/-- C5 witness: the refinement evaluated at concrete states — the default
instance for the temperature and percent parts, and `postInit` (whose
colour attributes hold the 500 seeds, the 3/6/9 deltas and the [0, 999]
bounds) for the colour-channel part. -/
theorem c5_witness :
    colorOnce.demo_red_value = some (advanceSpec ⟨500, 0, 999, 3⟩).current
    ∧ colorOnce.demo_red_delta = some (advanceSpec ⟨500, 0, 999, 3⟩).step
    ∧ colorOnce.demo_blue_value = some (advanceSpec ⟨500, 0, 999, 9⟩).current
    ∧ (DemoProcess.init.update_temperature).tempRange = advanceSpec DemoProcess.init.tempRange
    ∧ (DemoProcess.init.update_percent).pctRange = advanceSpecF DemoProcess.init.pctRange := by
  have h := c5_advance_refines_spec
  have hc := h.2.2 postInit colorOnce 500 3 500 6 500 9 999 0 255
    rfl rfl rfl rfl rfl rfl rfl rfl rfl rfl
  exact ⟨hc.1, hc.2.1, hc.2.2.2.2.1, h.1 DemoProcess.init, h.2.1 DemoProcess.init⟩

/-- C6.  The discrete-state tick (`_update_state`): every call decrements
the counter; when the decremented counter is still positive the current
state name and nothing else of the reselection machinery changes; when it
is ≤ 0 the counter is reset to the configured delay in that same call and
the current state is set to the drawn member's name (the draw, modelled
by the oracle, ranges over the full enumeration and may repeat the
previous value).  Consequently, from a freshly reset counter with period
5, calls 1–4 leave the state name unchanged and exactly call 5 stores the
drawn name and resets the counter to 5. -/
theorem c6_state_tick :
    (∀ (choice : DemoStates) (s : DemoProcess),
        s.state_count - 1 > 0 →
        ((s.update_state choice).current_state_name = s.current_state_name
         ∧ (s.update_state choice).state_count = s.state_count - 1))
    ∧ (∀ (choice : DemoStates) (s : DemoProcess),
        s.state_count - 1 ≤ 0 →
        ((s.update_state choice).state_count = s.state_delay
         ∧ (s.update_state choice).current_state_name = choice.name))
    ∧ (∀ (f : Nat → DemoStates) (s : DemoProcess),
        s.state_count = 5 → s.state_delay = 5 →
        ((∀ k : Fin 5, (DemoProcess.state_iter f k.val s).current_state_name = s.current_state_name)
         ∧ (DemoProcess.state_iter f 5 s).current_state_name = (f 4).name
         ∧ (DemoProcess.state_iter f 5 s).state_count = 5)) := by
  refine ⟨?_, ?_, ?_⟩
  · intro choice s h
    have hn : ¬(s.state_count - 1 ≤ 0) := not_le.mpr h
    simp [DemoProcess.update_state, hn]
  · intro choice s h
    simp [DemoProcess.update_state, h]
  · intro f s h1 h2
    have e1 : DemoProcess.state_iter f 1 s = { s with state_count := 4 } := by
      simp [DemoProcess.state_iter, DemoProcess.update_state, h1]
    have e2 : DemoProcess.state_iter f 2 s = { s with state_count := 3 } := by
      simp [DemoProcess.state_iter, DemoProcess.update_state, h1]
    have e3 : DemoProcess.state_iter f 3 s = { s with state_count := 2 } := by
      simp [DemoProcess.state_iter, DemoProcess.update_state, h1]
    have e4 : DemoProcess.state_iter f 4 s = { s with state_count := 1 } := by
      simp [DemoProcess.state_iter, DemoProcess.update_state, h1]
    have e5 : DemoProcess.state_iter f 5 s
        = { s with state_count := 5, current_state_name := (f 4).name } := by
      simp [DemoProcess.state_iter, DemoProcess.update_state, h1, h2]
    refine ⟨fun k => ?_, by rw [e5], by rw [e5]⟩
    fin_cases k
    · rfl
    · rw [e1]
    · rw [e2]
    · rw [e3]
    · rw [e4]

/-- C6 witness: the tick contract evaluated on the freshly constructed
instance (counter 5, delay 5) with a constant oracle drawing `Cycling`:
ticks 1–4 keep the name `Disconnected`, tick 5 stores `Cycling` and
resets the counter, and the per-call clauses hold at ticks 1 and 5. -/
theorem c6_witness :
    (DemoProcess.state_iter (fun _ => DemoStates.Cycling) 2 DemoProcess.init).current_state_name
      = "Disconnected"
    ∧ (DemoProcess.state_iter (fun _ => DemoStates.Cycling) 5 DemoProcess.init).current_state_name
      = "Cycling"
    ∧ (DemoProcess.state_iter (fun _ => DemoStates.Cycling) 5 DemoProcess.init).state_count = 5
    ∧ (DemoProcess.init.update_state DemoStates.Idle).current_state_name = "Disconnected"
    ∧ ((DemoProcess.state_iter (fun _ => DemoStates.Cycling) 4 DemoProcess.init).update_state
        DemoStates.Faulted).current_state_name = "Faulted" := by
  have h := c6_state_tick.2.2 (fun _ => DemoStates.Cycling) DemoProcess.init rfl rfl
  refine ⟨(h.1 ⟨2, by decide⟩).trans rfl, h.2.1.trans rfl, h.2.2, ?_, ?_⟩
  · exact ((c6_state_tick.1 DemoStates.Idle DemoProcess.init (by decide)).1).trans rfl
  · exact ((c6_state_tick.2.1 DemoStates.Faulted
      (DemoProcess.state_iter (fun _ => DemoStates.Cycling) 4 DemoProcess.init) (by decide)).2).trans rfl

/-- A successful `_update_color` call never changes the mode attribute. -/
theorem update_color_mode {ok : Bool} {s t : DemoProcess}
    (h : DemoProcess.update_color ok s = Except.ok t) : t.mode = s.mode := by
  unfold DemoProcess.update_color DemoProcess.set_demo_color at h
  simp only [bind_ok_iff, getAttr_ok_iff, pure_ok, ok_bind, throw_eq, Except.ok.injEq] at h
  obtain ⟨rv, h1, rd, h2, mx, h3, h⟩ := h
  repeat'
    first
    | (subst h; rfl)
    | (exact (h.symm ▸ rfl : t.mode = s.mode))
    | (obtain ⟨_, _, h⟩ := h)
    | (split at h <;>
        (try simp only [bind_ok_iff, getAttr_ok_iff, pure_ok, ok_bind, throw_eq,
          Except.ok.injEq] at h))

/-- `_update_temperature` never changes the mode attribute. -/
theorem update_temperature_mode (s : DemoProcess) : s.update_temperature.mode = s.mode := by
  by_cases h : s.current_temperature + s.temperature_delta ≥ s.max_temperature
      ∨ s.current_temperature + s.temperature_delta ≤ s.min_temperature
  · simp [DemoProcess.update_temperature, h]
  · simp [DemoProcess.update_temperature, h]

/-- `_update_percent` never changes the mode attribute. -/
theorem update_percent_mode (s : DemoProcess) : s.update_percent.mode = s.mode := by
  by_cases h : Flt.le s.max_percent (Flt.add s.current_percent s.percent_delta)
      ∨ Flt.le (Flt.add s.current_percent s.percent_delta) s.min_percent
  · simp [DemoProcess.update_percent, h]
  · simp [DemoProcess.update_percent, h]

/-- `_update_state` never changes the mode attribute. -/
theorem update_state_mode (c : DemoStates) (s : DemoProcess) :
    (s.update_state c).mode = s.mode := by
  by_cases h : s.state_count - 1 ≤ 0
  · simp [DemoProcess.update_state, h]
  · simp [DemoProcess.update_state, h]

/-- One completed fast-task body never changes the mode attribute. -/
theorem run_fast_body_mode {ok : Bool} {s t : DemoProcess}
    (h : DemoProcess.run_fast_body ok s = Except.ok t) : t.mode = s.mode := by
  unfold DemoProcess.run_fast_body at h
  rw [bind_ok_iff] at h
  obtain ⟨u, hu, hp⟩ := h
  rw [pure_ok, Except.ok.injEq] at hp
  rw [← hp, update_percent_mode]
  exact update_color_mode hu

/-- One completed slow-task body never changes the mode attribute. -/
theorem run_slow_body_mode {ok : Bool} {c : DemoStates} {s t : DemoProcess}
    (h : DemoProcess.run_slow_body ok c s = Except.ok t) : t.mode = s.mode := by
  unfold DemoProcess.run_slow_body at h
  rw [update_color_mode h, update_state_mode, update_temperature_mode]

/-- Any number of completed fast-task iterations never changes the mode. -/
theorem run_fast_iter_mode {ok : Bool} : ∀ (n : Nat) (s t : DemoProcess),
    DemoProcess.run_fast_iter ok n s = Except.ok t → t.mode = s.mode := by
  intro n
  induction n with
  | zero =>
    intro s t h
    simp only [DemoProcess.run_fast_iter, pure_ok, Except.ok.injEq] at h
    rw [← h]
  | succ n ih =>
    intro s t h
    simp only [DemoProcess.run_fast_iter] at h
    rw [bind_ok_iff] at h
    obtain ⟨u, hu, h2⟩ := h
    exact (ih u t h2).trans (run_fast_body_mode hu)

/-- Any number of completed slow-task iterations never changes the mode. -/
theorem run_slow_iter_mode {ok : Bool} : ∀ (f : Nat → DemoStates) (n : Nat) (s t : DemoProcess),
    DemoProcess.run_slow_iter ok f n s = Except.ok t → t.mode = s.mode := by
  intro f n
  induction n generalizing f with
  | zero =>
    intro s t h
    simp only [DemoProcess.run_slow_iter, pure_ok, Except.ok.injEq] at h
    rw [← h]
  | succ n ih =>
    intro s t h
    simp only [DemoProcess.run_slow_iter] at h
    rw [bind_ok_iff] at h
    obtain ⟨u, hu, h2⟩ := h
    exact (ih _ u t h2).trans (run_slow_body_mode hu)

/-- C7.  Neither periodic task body ever modifies the mode attribute: for
any number of completed iterations of the fast or the slow loop body,
from any starting state and with any colour-service behaviour and any
random draws, the resulting mode equals the starting mode; and the mode
write accessor `set_demo_mode` stores exactly the given member of the
`DemoModes` enumeration, so the mode field only ever holds enumeration
members. -/
theorem c7_mode_frame :
    (∀ (ok : Bool) (n : Nat) (s t : DemoProcess),
        DemoProcess.run_fast_iter ok n s = Except.ok t → t.mode = s.mode)
    ∧ (∀ (ok : Bool) (f : Nat → DemoStates) (n : Nat) (s t : DemoProcess),
        DemoProcess.run_slow_iter ok f n s = Except.ok t → t.mode = s.mode)
    ∧ (∀ (s : DemoProcess) (m : DemoModes), (s.set_demo_mode m).mode = m) :=
  ⟨fun _ n s t h => run_fast_iter_mode n s t h,
   fun _ f n s t h => run_slow_iter_mode f n s t h,
   fun _ _ => rfl⟩

/-- C7 witness: one completed fast iteration and one completed slow
iteration from `postInit` leave the mode at its initial `Disabled`, and
the write accessor stores the `Run` member on the fresh instance. -/
theorem c7_witness :
    fast1.mode = postInit.mode
    ∧ slow1.mode = postInit.mode
    ∧ fast1.mode = DemoModes.Disabled
    ∧ (DemoProcess.init.set_demo_mode DemoModes.Run).mode = DemoModes.Run := by
  have h1 := c7_mode_frame.1 true 1 postInit fast1 rfl
  have h2 := c7_mode_frame.2.1 true (fun _ => DemoStates.Idle) 1 postInit slow1 rfl
  exact ⟨h1, h2, h1.trans rfl, c7_mode_frame.2.2 DemoProcess.init DemoModes.Run⟩

/-- C8.  Each of the four limit write accessors stores the given value in
its own limit field and leaves every other field of the Model unchanged
(overwriting the changed field with its old value gives back the original
state); in particular the corresponding current value is untouched, even
when the new limit excludes it — no clamping happens on edit. -/
theorem c8_limit_setters_frame :
    (∀ (s : DemoProcess) (v : Int),
        (s.set_demo_max_temperature v).max_temperature = v
        ∧ { s.set_demo_max_temperature v with max_temperature := s.max_temperature } = s
        ∧ (s.set_demo_max_temperature v).current_temperature = s.current_temperature)
    ∧ (∀ (s : DemoProcess) (v : Int),
        (s.set_demo_min_temperature v).min_temperature = v
        ∧ { s.set_demo_min_temperature v with min_temperature := s.min_temperature } = s
        ∧ (s.set_demo_min_temperature v).current_temperature = s.current_temperature)
    ∧ (∀ (s : DemoProcess) (v : Flt),
        (s.set_demo_max_percent v).max_percent = v
        ∧ { s.set_demo_max_percent v with max_percent := s.max_percent } = s
        ∧ (s.set_demo_max_percent v).current_percent = s.current_percent)
    ∧ (∀ (s : DemoProcess) (v : Flt),
        (s.set_demo_min_percent v).min_percent = v
        ∧ { s.set_demo_min_percent v with min_percent := s.min_percent } = s
        ∧ (s.set_demo_min_percent v).current_percent = s.current_percent) :=
  ⟨fun _ _ => ⟨rfl, rfl, rfl⟩, fun _ _ => ⟨rfl, rfl, rfl⟩,
   fun _ _ => ⟨rfl, rfl, rfl⟩, fun _ _ => ⟨rfl, rfl, rfl⟩⟩

/-- C9.  Every pull-callback read accessor is side-effect-free — it hands
back the Model state exactly as it received it (for the colour getter,
whenever it returns at all) — and its returned string is a function of
the Model's current value of the displayed attribute alone: two states
agreeing on that attribute produce the same string. -/
theorem c9_getters_pure :
    (∀ s : DemoProcess,
        (s.get_demo_temperature_text).2 = s
        ∧ (s.get_demo_percent_text).2 = s
        ∧ (s.get_demo_state_text).2 = s
        ∧ (s.get_demo_mode_text).2 = s
        ∧ (s.get_demo_mode_value).2 = s
        ∧ (s.get_demo_tmax_text).2 = s
        ∧ (s.get_demo_tmin_text).2 = s
        ∧ (s.get_demo_pmax_text).2 = s
        ∧ (s.get_demo_pmin_text).2 = s
        ∧ ∀ p, s.get_demo_color_text = Except.ok p → p.2 = s)
    ∧ (∀ s u : DemoProcess, s.current_temperature = u.current_temperature →
        (s.get_demo_temperature_text).1 = (u.get_demo_temperature_text).1)
    ∧ (∀ s u : DemoProcess, s.current_percent = u.current_percent →
        (s.get_demo_percent_text).1 = (u.get_demo_percent_text).1)
    ∧ (∀ s u : DemoProcess, s.current_state_name = u.current_state_name →
        (s.get_demo_state_text).1 = (u.get_demo_state_text).1)
    ∧ (∀ s u : DemoProcess, s.mode = u.mode →
        (s.get_demo_mode_text).1 = (u.get_demo_mode_text).1)
    ∧ (∀ s u : DemoProcess, s.mode = u.mode →
        (s.get_demo_mode_value).1 = (u.get_demo_mode_value).1)
    ∧ (∀ s u : DemoProcess, s.max_temperature = u.max_temperature →
        (s.get_demo_tmax_text).1 = (u.get_demo_tmax_text).1)
    ∧ (∀ s u : DemoProcess, s.min_temperature = u.min_temperature →
        (s.get_demo_tmin_text).1 = (u.get_demo_tmin_text).1)
    ∧ (∀ s u : DemoProcess, s.max_percent = u.max_percent →
        (s.get_demo_pmax_text).1 = (u.get_demo_pmax_text).1)
    ∧ (∀ s u : DemoProcess, s.min_percent = u.min_percent →
        (s.get_demo_pmin_text).1 = (u.get_demo_pmin_text).1)
    ∧ (∀ s u : DemoProcess, s.demo_red_value = u.demo_red_value →
        s.demo_green_value = u.demo_green_value →
        s.demo_blue_value = u.demo_blue_value →
        (s.get_demo_color_text).map Prod.fst = (u.get_demo_color_text).map Prod.fst) := by
  refine ⟨fun s => ⟨rfl, rfl, rfl, rfl, rfl, rfl, rfl, rfl, rfl, ?_⟩,
    ?_, ?_, ?_, ?_, ?_, ?_, ?_, ?_, ?_, ?_⟩
  · intro p h
    unfold DemoProcess.get_demo_color_text at h
    simp only [bind_ok_iff, getAttr_ok_iff, pure_ok, Except.ok.injEq] at h
    obtain ⟨r, _, g, _, b, _, h⟩ := h
    rw [← h]
  · intro s u h
    unfold DemoProcess.get_demo_temperature_text
    rw [h]
  · intro s u h
    unfold DemoProcess.get_demo_percent_text
    rw [h]
  · intro s u h
    unfold DemoProcess.get_demo_state_text
    rw [h]
  · intro s u h
    unfold DemoProcess.get_demo_mode_text
    rw [h]
  · intro s u h
    unfold DemoProcess.get_demo_mode_value
    rw [h]
  · intro s u h
    unfold DemoProcess.get_demo_tmax_text
    rw [h]
  · intro s u h
    unfold DemoProcess.get_demo_tmin_text
    rw [h]
  · intro s u h
    unfold DemoProcess.get_demo_pmax_text
    rw [h]
  · intro s u h
    unfold DemoProcess.get_demo_pmin_text
    rw [h]
  · intro s u h1 h2 h3
    unfold DemoProcess.get_demo_color_text
    rw [h1, h2, h3]
    cases u.demo_red_value <;> cases u.demo_green_value <;> cases u.demo_blue_value <;>
      simp [getAttr, Except.map, ok_bind, error_bind, throw_eq]

/-- C9 witness: the purity and dependence clauses evaluated at concrete
states — the fresh instance against the same instance with a different
mode (equal temperatures give the same temperature string), and
`postInit` against the same state with a different temperature limit
(equal channels give the same colour string); the colour getter on
`postInit` returns its input state unchanged. -/
theorem c9_witness :
    (DemoProcess.init.get_demo_temperature_text).2 = DemoProcess.init
    ∧ (DemoProcess.init.get_demo_temperature_text).1
        = ((DemoProcess.init.set_demo_mode DemoModes.Run).get_demo_temperature_text).1
    ∧ ("Color: R:500 G:500 B:500", postInit).2 = postInit
    ∧ (postInit.get_demo_color_text).map Prod.fst
        = ((postInit.set_demo_max_temperature 99).get_demo_color_text).map Prod.fst := by
  refine ⟨(c9_getters_pure.1 DemoProcess.init).1, ?_, ?_, ?_⟩
  · exact c9_getters_pure.2.1 DemoProcess.init
      (DemoProcess.init.set_demo_mode DemoModes.Run) rfl
  · exact (c9_getters_pure.1 postInit).2.2.2.2.2.2.2.2.2
      ("Color: R:500 G:500 B:500", postInit) rfl
  · exact c9_getters_pure.2.2.2.2.2.2.2.2.2.2 postInit
      (postInit.set_demo_max_temperature 99) rfl rfl rfl

end Demo
